import Mathlib

/-!
Verification model of the legacy chip.json configuration converter
(`ChipConfigData` in `packages/controller/src/converter/ChipConfigData.ts`).

The converter reads a flat `sdk-config` key/value map (string keys, base64
string values), classifies each key into fabric-scoped / global / ignored /
generic buckets, decodes a handful of TLV record formats, and serializes the
model back out.  JavaScript strings are modelled as `List Char`, JS `Map`s as
insertion-ordered association lists with update-in-place semantics, thrown
exceptions as `Except`/`Option`, and `undefined` fields as `Option`.

The TLV record codec (`TlvSchemas.ts`) and the certificate library
(`Rcac`/`Icac`/`Noc` from `@matter/protocol`) are external collaborators of
the converter; they are modelled as parameters (`TlvCodec`, `CertLib`) whose
decode functions return `Option` (`none` = the decode threw) and whose verify
functions return `Except String Unit` (`error msg` = verification threw an
exception with message `msg`).
-/

namespace ChipConfig

/-- JavaScript strings are modelled as lists of characters. -/
abbrev Str := List Char

/-- Byte sequences (`Uint8Array`) are modelled as lists of naturals. -/
abbrev Bytes := List Nat

/-- Value of one base64 alphabet character, `none` for characters outside the
alphabet (Node's forgiving decoder skips those). -/
def b64val (c : Char) : Option Nat :=
  if 'A' ≤ c ∧ c ≤ 'Z' then some (c.toNat - 65)
  else if 'a' ≤ c ∧ c ≤ 'z' then some (c.toNat - 71)
  else if '0' ≤ c ∧ c ≤ '9' then some (c.toNat + 4)
  else if c = '+' then some 62
  else if c = '/' then some 63
  else none

/-- Regroup 6-bit values into bytes, dropping a trailing lone 6-bit value,
as `Buffer.from(s, "base64")` does. -/
def b64groups : List Nat → Bytes
  | a :: b :: c :: d :: rest =>
      (a * 4 + b / 16) :: ((b % 16) * 16 + c / 4) :: ((c % 4) * 64 + d) :: b64groups rest
  | [a, b, c] => [a * 4 + b / 16, (b % 16) * 16 + c / 4]
  | [a, b] => [a * 4 + b / 16]
  | _ => []

/-- Model of `Buffer.from(base64, "base64")`: ignore characters outside the
base64 alphabet (including `=` padding) and regroup the 6-bit values. -/
def b64decode (s : Str) : Bytes :=
  b64groups (s.filterMap b64val)

/-- Boolean test for a hexadecimal digit, the character class of the fabric
key regular expression. -/
def isHexDigit (c : Char) : Bool :=
  ('0' ≤ c ∧ c ≤ '9') ∨ ('a' ≤ c ∧ c ≤ 'f') ∨ ('A' ≤ c ∧ c ≤ 'F')

/-- Value of one hexadecimal digit. -/
def hexDigitVal (c : Char) : Nat :=
  if 97 ≤ c.toNat then c.toNat - 87
  else if 65 ≤ c.toNat then c.toNat - 55
  else c.toNat - 48

/-- Value of a string of hexadecimal digits, as `parseInt(s, 16)` computes it
on a string of digits. -/
def hexToNat (s : Str) : Nat :=
  s.foldl (fun n c => 16 * n + hexDigitVal c) 0

/-- Characters `parseInt` skips before the number. -/
def isJsSpace (c : Char) : Bool :=
  c = ' ' ∨ c = '\t' ∨ c = '\n' ∨ c = '\r' ∨ c.toNat = 11 ∨ c.toNat = 12

/-- Value of a string of decimal digits. -/
def decDigitsVal (s : Str) : Nat :=
  s.foldl (fun n c => 10 * n + (c.toNat - 48)) 0

/-- Model of `parseInt(s, 10)`: skip leading whitespace, read an optional
sign and then the maximal run of decimal digits; `none` models `NaN`. -/
def parseIntDec (s : Str) : Option Int :=
  let core : Str → Option Int := fun t =>
    let ds := t.takeWhile Char.isDigit
    if ds = [] then none else some (Int.ofNat (decDigitsVal ds))
  match s.dropWhile isJsSpace with
  | '-' :: t => (core t).map Int.neg
  | '+' :: t => core t
  | t => core t

/-- Boolean prefix test on character lists (model of `String.prototype.startsWith`). -/
def strStarts : Str → Str → Bool
  | [], _ => true
  | _ :: _, [] => false
  | p :: ps, c :: cs => if p = c then strStarts ps cs else false

/-- Decimal rendering of a natural, as JS template interpolation renders a
number (used by `save` for fabric index prefixes). -/
def natToStr (n : Nat) : Str := (Nat.repr n).data

/-- Model of `Map.prototype.get`: the value at the first (unique) matching key. -/
def mapGet {α β : Type} [DecidableEq α] : List (α × β) → α → Option β
  | [], _ => none
  | (a, b) :: rest, k => if a = k then some b else mapGet rest k

/-- Model of `Map.prototype.set`: update in place when the key is present,
append at the end otherwise (JS `Map` iterates in insertion order). -/
def mapSet {α β : Type} [DecidableEq α] : List (α × β) → α → β → List (α × β)
  | [], k, v => [(k, v)]
  | (a, b) :: rest, k, v =>
      if a = k then (a, v) :: rest else (a, b) :: mapSet rest k v

/-- A stored value together with its original base64 encoding
(`DecodedEntry` in `types.ts`): `raw` is `Buffer.from(base64, "base64")`. -/
structure DecodedEntry where
  raw : Bytes
  base64 : Str
deriving DecidableEq, Repr

/-- The static `ChipConfigData.decodeEntry`. -/
def decodeEntry (base64 : Str) : DecodedEntry :=
  { raw := b64decode base64, base64 := base64 }

/-- Decoded fabric metadata record (vendor id and label), the result type of
`TlvFabricMetadata.decode`. -/
structure FabricMetadata where
  vendorId : Nat
  label : Str
deriving DecidableEq, Repr

/-- One key entry of a group key set; the claims only inspect the raw key
bytes (whose length is `byteLength`). -/
structure GroupKeyEntry where
  key : Bytes
deriving DecidableEq, Repr

/-- Decoded group key set record, the result type of `TlvGroupKeySet.decode`. -/
structure GroupKeySet where
  policy : Nat
  keyCount : Nat
  groupKeySetId : Nat
  keys : List GroupKeyEntry
deriving DecidableEq, Repr

/-- Decoded session resumption entry (`TlvSessionResumptionEntry.decode`):
the fabric index inside the payload drives the ownership of `g/s/...` keys. -/
structure SessionResumptionEntry where
  fabricIndex : Nat
  peerNodeId : Nat
deriving DecidableEq, Repr

/-- Decoded session resumption details record
(`TlvSessionResumptionDetails.decode`). -/
structure SessionResumptionDetails where
  resumptionId : Bytes
  sharedSecret : Bytes
  cat : Bytes
deriving DecidableEq, Repr

/-- Decoded fabric index list record (`TlvFabricIndexList.decode`). -/
structure FabricIndexList where
  nextFabricIndex : Nat
  fabricIndices : List Nat
deriving DecidableEq, Repr

/-- Decoded last-known-good-time record (`TlvLastKnownGoodTime.decode`). -/
structure LastKnownGoodTime where
  epochSeconds : Nat
deriving DecidableEq, Repr

/-- The TLV record codec of `TlvSchemas.ts`, taken as a parameter: each
decode returns `none` exactly when the source decode throws. -/
structure TlvCodec where
  decodeFabricMetadata : Bytes → Option FabricMetadata
  decodeGroupKeySet : Bytes → Option GroupKeySet
  decodeSessionResumptionDetails : Bytes → Option SessionResumptionDetails
  decodeFabricIndexList : Bytes → Option FabricIndexList
  decodeLastKnownGoodTime : Bytes → Option LastKnownGoodTime
  decodeSessionResumptionIndex : Bytes → Option (List SessionResumptionEntry)
  decodeSessionResumptionEntry : Bytes → Option SessionResumptionEntry

/-- A key-set slot number: `parseInt(subKey.slice(2), 10)` yields an integer
or `NaN` (modelled `none`). -/
abbrev KeySlot := Option Int

/-- Per-fabric data (`FabricData` in `types.ts`): certificates, metadata,
key sets, sessions and resumption entries, plus the opaque `other` bucket. -/
structure FabricData where
  index : Nat
  noc : Option DecodedEntry := none
  icac : Option DecodedEntry := none
  rcac : Option DecodedEntry := none
  metadata : Option DecodedEntry := none
  metadataDecoded : Option FabricMetadata := none
  keys : List (KeySlot × DecodedEntry) := []
  keysDecoded : List (KeySlot × GroupKeySet) := []
  sessions : List (Str × DecodedEntry) := []
  sessionsDecoded : List (Str × SessionResumptionDetails) := []
  resumptions : List (Str × DecodedEntry) := []
  resumptionsDecoded : List (Str × SessionResumptionEntry) := []
  other : List (Str × DecodedEntry) := []
deriving DecidableEq, Repr

/-- Global configuration data (`GlobalData` in `types.ts`). -/
structure GlobalData where
  fabricIndexList : Option DecodedEntry := none
  fabricIndexListDecoded : Option FabricIndexList := none
  lastKnownGoodTime : Option DecodedEntry := none
  lastKnownGoodTimeDecoded : Option LastKnownGoodTime := none
deriving DecidableEq, Repr

/-- Global session resumption index (`SessionData` in `types.ts`). -/
structure SessionData where
  resumptionIndex : Option DecodedEntry := none
  resumptionIndexDecoded : Option (List SessionResumptionEntry) := none
deriving DecidableEq, Repr

/-- The in-memory model held by one `ChipConfigData` instance. -/
structure ChipConfigData where
  fabrics : List (Nat × FabricData) := []
  sessions : SessionData := {}
  globals : GlobalData := {}
  ignored : List (Str × Str) := []
  generic : List (Str × Str) := []
  replConfig : List (Str × Str) := []
deriving DecidableEq, Repr

/-- A freshly constructed `ChipConfigData` instance. -/
def emptyCCD : ChipConfigData := {}

/-- The on-disk `ChipConfigFile` shape: an `sdk-config` map of base64 strings
and an optional opaque `repl-config` object.  A file whose top-level JSON is
malformed is modelled as `none` at the call site of `load`. -/
structure ChipConfigFile where
  sdkConfig : Option (List (Str × Str)) := none
  replConfig : Option (List (Str × Str)) := none
deriving DecidableEq, Repr

/-- The key `g/fidx`. -/
def keyGFidx : Str := ['g', '/', 'f', 'i', 'd', 'x']

/-- The key `g/lkgt`. -/
def keyGLkgt : Str := ['g', '/', 'l', 'k', 'g', 't']

/-- The key `g/sri`. -/
def keyGSri : Str := ['g', '/', 's', 'r', 'i']

/-- The prefix `f/`. -/
def keyFS : Str := ['f', '/']

/-- The prefix `g/`. -/
def keyGS : Str := ['g', '/']

/-- The static `isIgnoredKey`: the `IGNORED_KEY_PATTERNS` regular expressions
are all exact-string patterns (`g/fs/c`, `g/fs/n`, `g/gdc`, `g/gcc`, `g/gfl`,
`g/icdfl`). -/
def isIgnoredKey (key : Str) : Bool :=
  key = ['g', '/', 'f', 's', '/', 'c'] ∨ key = ['g', '/', 'f', 's', '/', 'n'] ∨
  key = ['g', '/', 'g', 'd', 'c'] ∨ key = ['g', '/', 'g', 'c', 'c'] ∨
  key = ['g', '/', 'g', 'f', 'l'] ∨ key = ['g', '/', 'i', 'c', 'd', 'f', 'l']

/-- JS line terminators, which `.` in the fabric-key regular expression does
not match. -/
def isLineTerm (c : Char) : Bool :=
  c = '\n' ∨ c = '\r' ∨ c.toNat = 8232 ∨ c.toNat = 8233

/-- Model of `key.match(/^f\x2f([0-9a-fA-F]+)\x2f(.+)$/)`: on success returns
the hex fabric index (via `parseInt(_, 16)`) and the sub-key.  Since `/` is
not a hex digit the regular expression matches exactly when the maximal hex
digit run after `f/` is nonempty, is followed by `/`, and the nonempty
remainder contains no line terminator. -/
def matchFabricKey : Str → Option (Nat × Str)
  | 'f' :: '/' :: rest =>
      let hexRun := rest.takeWhile isHexDigit
      match hexRun, rest.dropWhile isHexDigit with
      | [], _ => none
      | _ :: _, '/' :: sub =>
          if sub ≠ [] ∧ sub.all (fun c => ¬ isLineTerm c) then
            some (hexToNat hexRun, sub)
          else none
      | _ :: _, _ => none
  | _ => none

/-- Model of the `key.startsWith("g/s/")` test together with `key.slice(4)`. -/
def gsSuffix : Str → Option Str
  | 'g' :: '/' :: 's' :: '/' :: rest => some rest
  | _ => none

/-- A fresh `FabricData` record, as `getOrCreateFabric` constructs it. -/
def emptyFabric (index : Nat) : FabricData := { index := index }

/-- The state effect of `getOrCreateFabric`: ensure a `FabricData` entry
exists for the index (inserted at the end of the map when absent). -/
def getOrCreateFabric (m : ChipConfigData) (index : Nat) : ChipConfigData :=
  if (mapGet m.fabrics index).isSome then m
  else { m with fabrics := m.fabrics ++ [(index, emptyFabric index)] }

/-- The fabric record `getOrCreateFabric` hands out: the stored one, or a
fresh one when absent. -/
def fabOrEmpty (m : ChipConfigData) (i : Nat) : FabricData :=
  (mapGet m.fabrics i).getD (emptyFabric i)

/-- Mutation of the (shared, in-place) `FabricData` returned by
`getOrCreateFabric`: get-or-create the fabric, then update the shared entry
in place. -/
def modifyFabric (m : ChipConfigData) (index : Nat) (f : FabricData → FabricData) :
    ChipConfigData :=
  let m2 := getOrCreateFabric m index
  { m2 with fabrics := mapSet m2.fabrics index (f (fabOrEmpty m index)) }

/-- `parseFabricKey`: route one `f/<hexIndex>/<subkey>` entry.  A key that
does not match the pattern is silently discarded (the source returns without
storing it).  Decode failures (`none`) leave the `*Decoded` data untouched. -/
def parseFabricKey (codec : TlvCodec) (m : ChipConfigData) (key value : Str) :
    ChipConfigData :=
  match matchFabricKey key with
  | none => m
  | some (fabricIndex, subKey) =>
      let entry := decodeEntry value
      modifyFabric m fabricIndex (fun fabric =>
        if subKey = ['n'] then { fabric with noc := some entry }
        else if subKey = ['i'] then { fabric with icac := some entry }
        else if subKey = ['r'] then { fabric with rcac := some entry }
        else if subKey = ['m'] then
          { fabric with
            metadata := some entry
            metadataDecoded :=
              match codec.decodeFabricMetadata entry.raw with
              | some d => some d
              | none => fabric.metadataDecoded }
        else if strStarts ['k', '/'] subKey then
          let keyIndex := parseIntDec (subKey.drop 2)
          { fabric with
            keys := mapSet fabric.keys keyIndex entry
            keysDecoded :=
              match codec.decodeGroupKeySet entry.raw with
              | some d => mapSet fabric.keysDecoded keyIndex d
              | none => fabric.keysDecoded }
        else if strStarts ['s', '/'] subKey then
          let nodeHex := subKey.drop 2
          { fabric with
            sessions := mapSet fabric.sessions nodeHex entry
            sessionsDecoded :=
              match codec.decodeSessionResumptionDetails entry.raw with
              | some d => mapSet fabric.sessionsDecoded nodeHex d
              | none => fabric.sessionsDecoded }
        else { fabric with other := mapSet fabric.other subKey entry })

/-- `parseGlobalKey`: route one `g/...` entry.  `g/s/<resumptionId>` is
decoded first to learn its owning fabric; if that decode fails the pair is
stored in the generic bucket.  A `g/...` key matching none of the recognized
tags falls through every branch and is silently discarded. -/
def parseGlobalKey (codec : TlvCodec) (m : ChipConfigData) (key value : Str) :
    ChipConfigData :=
  let entry := decodeEntry value
  if key = keyGFidx then
    { m with globals :=
        { m.globals with
          fabricIndexList := some entry
          fabricIndexListDecoded :=
            match codec.decodeFabricIndexList entry.raw with
            | some d => some d
            | none => m.globals.fabricIndexListDecoded } }
  else if key = keyGLkgt then
    { m with globals :=
        { m.globals with
          lastKnownGoodTime := some entry
          lastKnownGoodTimeDecoded :=
            match codec.decodeLastKnownGoodTime entry.raw with
            | some d => some d
            | none => m.globals.lastKnownGoodTimeDecoded } }
  else if key = keyGSri then
    { m with sessions :=
        { m.sessions with
          resumptionIndex := some entry
          resumptionIndexDecoded :=
            match codec.decodeSessionResumptionIndex entry.raw with
            | some d => some d
            | none => m.sessions.resumptionIndexDecoded } }
  else
    match gsSuffix key with
    | some resumptionId =>
        match codec.decodeSessionResumptionEntry entry.raw with
        | some decoded =>
            modifyFabric m decoded.fabricIndex (fun fabric =>
              { fabric with
                resumptions := mapSet fabric.resumptions resumptionId entry
                resumptionsDecoded :=
                  mapSet fabric.resumptionsDecoded resumptionId decoded })
        | none => { m with generic := mapSet m.generic key value }
    | none => m

/-- The per-entry body of the `load` loop over `Object.entries(sdkConfig)`. -/
def processSdkEntry (codec : TlvCodec) (m : ChipConfigData) (kv : Str × Str) :
    ChipConfigData :=
  if isIgnoredKey kv.1 then { m with ignored := mapSet m.ignored kv.1 kv.2 }
  else if strStarts keyFS kv.1 then parseFabricKey codec m kv.1 kv.2
  else if strStarts keyGS kv.1 then parseGlobalKey codec m kv.1 kv.2
  else { m with generic := mapSet m.generic kv.1 kv.2 }

/-- The block of `clear` statements at the top of `load` (run only after the
file content has parsed): everything except `replConfig` is reset. -/
def clearData (m : ChipConfigData) : ChipConfigData :=
  { m with
    fabrics := []
    sessions := { resumptionIndex := none, resumptionIndexDecoded := none }
    globals := { fabricIndexList := none, fabricIndexListDecoded := none,
                 lastKnownGoodTime := none, lastKnownGoodTimeDecoded := none }
    ignored := []
    generic := [] }

/-- Error carried by `load` when `JSON.parse` throws on the file content. -/
def jsonParseError : String := "SyntaxError: malformed JSON"

/-- `load`: `none` content models a file whose top-level JSON does not parse,
in which case `JSON.parse` throws before any mutation and the caller's model
is unchanged (the old state `m` stays in force).  On success the previous
state is cleared, `repl-config` is stored as-is, and every `sdk-config` entry
is classified in file order. -/
def load (codec : TlvCodec) (m : ChipConfigData) (content : Option ChipConfigFile) :
    Except String ChipConfigData :=
  match content with
  | none => .error jsonParseError
  | some data =>
      .ok ((data.sdkConfig.getD []).foldl (processSdkEntry codec)
        { clearData m with replConfig := data.replConfig.getD [] })

/-- Rendering of one key-set slot for `save`: `NaN` renders as the string
`NaN` under JS template interpolation. -/
def slotStr : KeySlot → Str
  | none => ['N', 'a', 'N']
  | some i => (Int.repr i).data

/-- The `save` loop body for one fabric: emit noc/icac/rcac/metadata, key
sets, sessions, this fabric's global resumption entries, then `other`.  The
prefix renders the fabric index in decimal. -/
def saveFabricEntries (acc : List (Str × Str)) (fabricIndex : Nat) (fabric : FabricData) :
    List (Str × Str) :=
  let pfx := 'f' :: '/' :: natToStr fabricIndex
  let acc := match fabric.noc with
    | some e => mapSet acc (pfx ++ ['/', 'n']) e.base64
    | none => acc
  let acc := match fabric.icac with
    | some e => mapSet acc (pfx ++ ['/', 'i']) e.base64
    | none => acc
  let acc := match fabric.rcac with
    | some e => mapSet acc (pfx ++ ['/', 'r']) e.base64
    | none => acc
  let acc := match fabric.metadata with
    | some e => mapSet acc (pfx ++ ['/', 'm']) e.base64
    | none => acc
  let acc := fabric.keys.foldl
    (fun a p => mapSet a (pfx ++ ['/', 'k', '/'] ++ slotStr p.1) p.2.base64) acc
  let acc := fabric.sessions.foldl
    (fun a p => mapSet a (pfx ++ ['/', 's', '/'] ++ p.1) p.2.base64) acc
  let acc := fabric.resumptions.foldl
    (fun a p => mapSet a (['g', '/', 's', '/'] ++ p.1) p.2.base64) acc
  fabric.other.foldl (fun a p => mapSet a (pfx ++ '/' :: p.1) p.2.base64) acc

/-- `save`: rebuild the flat `sdk-config` map (globals, then per-fabric data,
then ignored keys, then generic keys) and include `repl-config` only when it
is non-empty. -/
def save (m : ChipConfigData) : ChipConfigFile :=
  let sdk : List (Str × Str) := []
  let sdk := match m.globals.fabricIndexList with
    | some e => mapSet sdk keyGFidx e.base64
    | none => sdk
  let sdk := match m.globals.lastKnownGoodTime with
    | some e => mapSet sdk keyGLkgt e.base64
    | none => sdk
  let sdk := match m.sessions.resumptionIndex with
    | some e => mapSet sdk keyGSri e.base64
    | none => sdk
  let sdk := m.fabrics.foldl (fun a p => saveFabricEntries a p.1 p.2) sdk
  let sdk := m.ignored.foldl (fun a p => mapSet a p.1 p.2) sdk
  let sdk := m.generic.foldl (fun a p => mapSet a p.1 p.2) sdk
  { sdkConfig := some sdk
    replConfig := if m.replConfig = [] then none else some m.replConfig }

/-- `getFabricIndices`: all fabric indices, sorted ascending numerically
(`Array.from(map.keys()).sort((a, b) => a - b)`). -/
def getFabricIndices (m : ChipConfigData) : List Nat :=
  List.insertionSort (fun a b => a ≤ b) (m.fabrics.map Prod.fst)

/-- `getFabric`. -/
def getFabric (m : ChipConfigData) (index : Nat) : Option FabricData :=
  mapGet m.fabrics index

/-- Subject (or issuer) fields of a decoded Matter certificate that the
converter reads; absent fields model `undefined`. -/
structure CertSubject where
  nodeId : Option Nat := none
  fabricId : Option Nat := none
  rcacId : Option Nat := none
deriving DecidableEq, Repr

/-- A decoded certificate from the external certificate library, flattened
to the fields the converter consumes (`cert.subject`,
`cert.ellipticCurvePublicKey`). -/
structure MatterCert where
  subject : CertSubject := {}
  ellipticCurvePublicKey : Bytes := []
deriving DecidableEq, Repr

/-- The external certificate library (`Rcac`/`Icac`/`Noc` of
`@matter/protocol`) with the per-call crypto provider folded in: `fromTlv`
returns `none` when decoding throws, `verify` returns `.error msg` when
verification throws an exception carrying `msg`. -/
structure CertLib where
  rcacFromTlv : Bytes → Option MatterCert
  icacFromTlv : Bytes → Option MatterCert
  nocFromTlv : Bytes → Option MatterCert
  verifyRcac : MatterCert → Except String Unit
  verifyIcac : MatterCert → MatterCert → Except String Unit
  verifyNoc : MatterCert → MatterCert → Option MatterCert → Except String Unit

/-- One collaborator invocation performed by `verifyCertificateChain`,
recorded to state which steps of the algorithm ran. -/
inductive VStep where
  | rcacDecode
  | icacDecode
  | nocDecode
  | rcacVerify
  | icacVerify
  | nocVerify
deriving DecidableEq, Repr

/-- `getRcac` instrumented with the decode invocations it performs:
`Rcac.fromTlv` is attempted only when the fabric and its RCAC bytes exist. -/
def getRcacT (lib : CertLib) (m : ChipConfigData) (fabricIndex : Nat) :
    Option MatterCert × List VStep :=
  match mapGet m.fabrics fabricIndex with
  | none => (none, [])
  | some fabric =>
      match fabric.rcac with
      | none => (none, [])
      | some entry => (lib.rcacFromTlv entry.raw, [.rcacDecode])

/-- `getIcac` instrumented with the decode invocations it performs. -/
def getIcacT (lib : CertLib) (m : ChipConfigData) (fabricIndex : Nat) :
    Option MatterCert × List VStep :=
  match mapGet m.fabrics fabricIndex with
  | none => (none, [])
  | some fabric =>
      match fabric.icac with
      | none => (none, [])
      | some entry => (lib.icacFromTlv entry.raw, [.icacDecode])

/-- `getNoc` instrumented with the decode invocations it performs. -/
def getNocT (lib : CertLib) (m : ChipConfigData) (fabricIndex : Nat) :
    Option MatterCert × List VStep :=
  match mapGet m.fabrics fabricIndex with
  | none => (none, [])
  | some fabric =>
      match fabric.noc with
      | none => (none, [])
      | some entry => (lib.nocFromTlv entry.raw, [.nocDecode])

/-- `getRcac`: decode the fabric's RCAC, `none` when missing or throwing. -/
def getRcac (lib : CertLib) (m : ChipConfigData) (fabricIndex : Nat) :
    Option MatterCert :=
  (getRcacT lib m fabricIndex).1

/-- `getIcac`: decode the fabric's ICAC, `none` when missing or throwing. -/
def getIcac (lib : CertLib) (m : ChipConfigData) (fabricIndex : Nat) :
    Option MatterCert :=
  (getIcacT lib m fabricIndex).1

/-- `getNoc`: decode the fabric's NOC, `none` when missing or throwing. -/
def getNoc (lib : CertLib) (m : ChipConfigData) (fabricIndex : Nat) :
    Option MatterCert :=
  (getNocT lib m fabricIndex).1

/-- `CertificateVerificationResult`: optional flags model fields the source
leaves `undefined`. -/
structure CertificateVerificationResult where
  valid : Bool
  rcacValid : Option Bool := none
  icacValid : Option Bool := none
  nocValid : Option Bool := none
  error : Option String := none
deriving DecidableEq, Repr

/-- `verifyCertificateChain` instrumented with the ordered list of
collaborator invocations it performs.  The source fetches (decodes) RCAC,
then ICAC, then NOC; returns early when RCAC or NOC is unavailable; then
verifies RCAC, ICAC (only if an ICAC was decoded) and NOC, short-circuiting
on the first verification failure. -/
def verifyCertificateChainT (lib : CertLib) (m : ChipConfigData) (fabricIndex : Nat) :
    CertificateVerificationResult × List VStep :=
  match (getRcacT lib m fabricIndex).1 with
  | none =>
      ({ valid := false, error := some "RCAC not found or invalid" },
       (getRcacT lib m fabricIndex).2)
  | some rcac =>
      let fetches := (getRcacT lib m fabricIndex).2 ++ (getIcacT lib m fabricIndex).2 ++
        (getNocT lib m fabricIndex).2
      match (getNocT lib m fabricIndex).1 with
      | none =>
          ({ valid := false, error := some "NOC not found or invalid" }, fetches)
      | some noc =>
          match lib.verifyRcac rcac with
          | .error e =>
              ({ valid := false, rcacValid := some false,
                 error := some ("RCAC verification failed: " ++ e) },
               fetches ++ [.rcacVerify])
          | .ok _ =>
              match (getIcacT lib m fabricIndex).1 with
              | some icac =>
                  match lib.verifyIcac icac rcac with
                  | .error e =>
                      ({ valid := false, rcacValid := some true, icacValid := some false,
                         error := some ("ICAC verification failed: " ++ e) },
                       fetches ++ [.rcacVerify, .icacVerify])
                  | .ok _ =>
                      match lib.verifyNoc noc rcac (some icac) with
                      | .error e =>
                          ({ valid := false, rcacValid := some true,
                             icacValid := some true, nocValid := some false,
                             error := some ("NOC verification failed: " ++ e) },
                           fetches ++ [.rcacVerify, .icacVerify, .nocVerify])
                      | .ok _ =>
                          ({ valid := true, rcacValid := some true,
                             icacValid := some true, nocValid := some true },
                           fetches ++ [.rcacVerify, .icacVerify, .nocVerify])
              | none =>
                  match lib.verifyNoc noc rcac none with
                  | .error e =>
                      ({ valid := false, rcacValid := some true, nocValid := some false,
                         error := some ("NOC verification failed: " ++ e) },
                       fetches ++ [.rcacVerify, .nocVerify])
                  | .ok _ =>
                      ({ valid := true, rcacValid := some true, nocValid := some true },
                       fetches ++ [.rcacVerify, .nocVerify])

/-- `verifyCertificateChain`: the structured result returned to the caller. -/
def verifyCertificateChain (lib : CertLib) (m : ChipConfigData) (fabricIndex : Nat) :
    CertificateVerificationResult :=
  (verifyCertificateChainT lib m fabricIndex).1

/-- `FabricConfigData`: the migration-ready projection of one fabric. -/
structure FabricConfigData where
  fabricIndex : Nat
  fabricId : Nat
  nodeId : Nat
  rootNodeId : Nat
  rootVendorId : Nat
  rootCert : Bytes
  rootPublicKey : Bytes
  identityProtectionKey : Bytes
  intermediateCACert : Option Bytes
  operationalCert : Bytes
  label : Str
deriving DecidableEq, Repr

/-- `getFabricConfig`: all-or-nothing projection.  Mirrors the source's guard
sequence: fabric exists, RCAC and NOC decode, their raw entries exist, the
NOC subject carries nodeId and fabricId, the RCAC subject carries rcacId,
the fabric metadata decoded, and key-set slot 0 decoded with a nonempty key
list containing an entry whose key is exactly 16 bytes (the IPK). -/
def getFabricConfig (lib : CertLib) (m : ChipConfigData) (fabricIndex : Nat) :
    Option FabricConfigData :=
  match mapGet m.fabrics fabricIndex with
  | none => none
  | some fabric =>
  match getRcac lib m fabricIndex with
  | none => none
  | some rcac =>
  match getNoc lib m fabricIndex with
  | none => none
  | some noc =>
  match fabric.rcac with
  | none => none
  | some rcacEntry =>
  match fabric.noc with
  | none => none
  | some nocEntry =>
  match noc.subject.nodeId with
  | none => none
  | some nodeId =>
  match noc.subject.fabricId with
  | none => none
  | some fabricId =>
  match rcac.subject.rcacId with
  | none => none
  | some rcacId =>
  match fabric.metadataDecoded with
  | none => none
  | some md =>
  match mapGet fabric.keysDecoded (some 0) with
  | none => none
  | some ipkKeySet =>
  if ipkKeySet.keys.length = 0 then none
  else
    match ipkKeySet.keys.find? (fun k => k.key.length = 16) with
    | none => none
    | some ipkEntry =>
        some { fabricIndex := fabricIndex
               fabricId := fabricId
               nodeId := nodeId
               rootNodeId := rcacId
               rootVendorId := md.vendorId
               rootCert := rcacEntry.raw
               rootPublicKey := rcac.ellipticCurvePublicKey
               identityProtectionKey := ipkEntry.key
               intermediateCACert := (fabric.icac).map DecodedEntry.raw
               operationalCert := nocEntry.raw
               label := md.label }

/-- The prerequisite checklist of `getFabricConfig`, as a Boolean with the
same guard structure: `getFabricConfig` succeeds exactly when this holds. -/
def fabricConfigPrereq (lib : CertLib) (m : ChipConfigData) (fabricIndex : Nat) : Bool :=
  match mapGet m.fabrics fabricIndex with
  | none => false
  | some fabric =>
  match getRcac lib m fabricIndex with
  | none => false
  | some rcac =>
  match getNoc lib m fabricIndex with
  | none => false
  | some noc =>
      fabric.rcac.isSome && fabric.noc.isSome &&
      noc.subject.nodeId.isSome && noc.subject.fabricId.isSome &&
      rcac.subject.rcacId.isSome &&
      fabric.metadataDecoded.isSome &&
      (match mapGet fabric.keysDecoded (some 0) with
       | some ks =>
           decide (ks.keys.length ≠ 0) && (ks.keys.find? (fun k => k.key.length = 16)).isSome
       | none => false)

/-- A codec all of whose decoders throw; used where decoding is irrelevant
or must fail. -/
def trivialCodec : TlvCodec where
  decodeFabricMetadata := fun _ => none
  decodeGroupKeySet := fun _ => none
  decodeSessionResumptionDetails := fun _ => none
  decodeFabricIndexList := fun _ => none
  decodeLastKnownGoodTime := fun _ => none
  decodeSessionResumptionIndex := fun _ => none
  decodeSessionResumptionEntry := fun _ => none

/-- The base64 value `AA==` (decoding to the single byte 0). -/
def valAA : Str := ['A', 'A', '=', '=']

/-- A file whose only entry is `f/A/n`, a fabric key with the hexadecimal
index `A` (ten). -/
def fileC1 : ChipConfigFile :=
  { sdkConfig := some [(['f', '/', 'A', '/', 'n'], valAA)] }

/-- The model state after loading `fileC1`: fabric ten holds the NOC. -/
def mC1 : ChipConfigData :=
  { fabrics := [(10, { index := 10, noc := some (decodeEntry valAA) })] }

/-- The model state after reloading the save of `mC1`: the decimal prefix
`f/10` reparses as hexadecimal, yielding fabric sixteen. -/
def mC1b : ChipConfigData :=
  { fabrics := [(16, { index := 16, noc := some (decodeEntry valAA) })] }

/-- A file holding an unrecognized global key `g/x` and a malformed fabric
key `f/x`. -/
def fileC2 : ChipConfigFile :=
  { sdkConfig := some [(['g', '/', 'x'], valAA), (['f', '/', 'x'], valAA)] }

/-- A concrete decoded root certificate. -/
def certR : MatterCert :=
  { subject := { rcacId := some 5 }, ellipticCurvePublicKey := [1, 2] }

/-- A concrete decoded operational certificate. -/
def certN : MatterCert :=
  { subject := { nodeId := some 7, fabricId := some 9 } }

/-- A concrete decoded intermediate certificate. -/
def certI : MatterCert := {}

/-- A certificate library whose RCAC decodes but fails self-verification and
whose other decoders throw. -/
def libC3 : CertLib where
  rcacFromTlv := fun _ => some certR
  icacFromTlv := fun _ => none
  nocFromTlv := fun _ => none
  verifyRcac := fun _ => .error "bad signature"
  verifyIcac := fun _ _ => .ok ()
  verifyNoc := fun _ _ _ => .ok ()

/-- A file whose only entry is fabric 1's RCAC. -/
def fileC3 : ChipConfigFile :=
  { sdkConfig := some [(['f', '/', '1', '/', 'r'], valAA)] }

/-- The model state after loading `fileC3`: fabric 1 has RCAC bytes and no
NOC. -/
def mC3 : ChipConfigData :=
  { fabrics := [(1, { index := 1, rcac := some (decodeEntry valAA) })] }

/-- Like `libC3` but with a decodable NOC, for the amended RCAC-failure
statement. -/
def libW3 : CertLib :=
  { libC3 with nocFromTlv := fun _ => some certN }

/-- A model state where fabric 1 has both RCAC and NOC bytes. -/
def mW3 : ChipConfigData :=
  { fabrics := [(1, { index := 1, rcac := some (decodeEntry valAA),
                      noc := some (decodeEntry valAA) })] }

/-- A certificate library where RCAC and NOC decode and verify but the ICAC
bytes do not decode. -/
def libC4 : CertLib where
  rcacFromTlv := fun _ => some certR
  icacFromTlv := fun _ => none
  nocFromTlv := fun _ => some certN
  verifyRcac := fun _ => .ok ()
  verifyIcac := fun _ _ => .error "unreachable"
  verifyNoc := fun _ _ _ => .ok ()

/-- A file giving fabric 1 RCAC, ICAC and NOC bytes. -/
def fileC4 : ChipConfigFile :=
  { sdkConfig := some [(['f', '/', '1', '/', 'r'], valAA),
                       (['f', '/', '1', '/', 'i'], valAA),
                       (['f', '/', '1', '/', 'n'], valAA)] }

/-- The model state after loading `fileC4`. -/
def mC4 : ChipConfigData :=
  { fabrics := [(1, { index := 1, noc := some (decodeEntry valAA),
                      icac := some (decodeEntry valAA),
                      rcac := some (decodeEntry valAA) })] }

/-- A certificate library whose ICAC decodes but fails verification against
the RCAC. -/
def libW4 : CertLib where
  rcacFromTlv := fun _ => some certR
  icacFromTlv := fun _ => some certI
  nocFromTlv := fun _ => some certN
  verifyRcac := fun _ => .ok ()
  verifyIcac := fun _ _ => .error "bad icac"
  verifyNoc := fun _ _ _ => .ok ()

/-- A codec whose session resumption entry decoder always reports fabric
index 1, peer node 112. -/
def codecW5 : TlvCodec :=
  { trivialCodec with
    decodeSessionResumptionEntry := fun _ => some { fabricIndex := 1, peerNodeId := 112 } }

/-- The file of the hex-index test: keys `f/3/n`, `f/1/n`, `f/A/n`, `f/2/n`
in unsorted order. -/
def fileC6 (v : Str) : ChipConfigFile :=
  { sdkConfig := some [(['f', '/', '3', '/', 'n'], v), (['f', '/', '1', '/', 'n'], v),
                       (['f', '/', 'A', '/', 'n'], v), (['f', '/', '2', '/', 'n'], v)] }

/-- A group key set whose only entry carries a 16-byte key. -/
def gks16 : GroupKeySet :=
  { policy := 0, keyCount := 1, groupKeySetId := 65535,
    keys := [{ key := List.replicate 16 0 }] }

/-- A fully populated fabric for the projection witness. -/
def mW9 : ChipConfigData :=
  { fabrics := [(1, { index := 1
                      rcac := some (decodeEntry valAA)
                      noc := some (decodeEntry valAA)
                      metadataDecoded := some { vendorId := 4939, label := [] }
                      keysDecoded := [(some 0, gks16)] })] }

/-- A certificate library under which `mW9`'s certificates decode. -/
def libW9 : CertLib where
  rcacFromTlv := fun _ => some certR
  icacFromTlv := fun _ => none
  nocFromTlv := fun _ => some certN
  verifyRcac := fun _ => .ok ()
  verifyIcac := fun _ _ => .ok ()
  verifyNoc := fun _ _ _ => .ok ()

/-- The key `g/s/<resumptionId>` for a given resumption id. -/
def gsKey (rid : Str) : Str := 'g' :: '/' :: 's' :: '/' :: rid

theorem mapGet_mapSet_self {α β : Type} [DecidableEq α] (m : List (α × β)) (k : α) (v : β) :
    mapGet (mapSet m k v) k = some v := by
  induction m with
  | nil => simp [mapSet, mapGet]
  | cons p rest ih =>
    obtain ⟨a, b⟩ := p
    by_cases h : a = k
    · subst h; simp [mapSet, mapGet]
    · simp [mapSet, mapGet, h, ih]

theorem mapGet_append_right {α β : Type} [DecidableEq α] (l l2 : List (α × β)) (k : α)
    (h : mapGet l k = none) : mapGet (l ++ l2) k = mapGet l2 k := by
  induction l with
  | nil => simp
  | cons p rest ih =>
    obtain ⟨a, b⟩ := p
    simp only [mapGet] at h
    by_cases hak : a = k
    · rw [if_pos hak] at h; simp at h
    · rw [if_neg hak] at h
      show mapGet ((a, b) :: (rest ++ l2)) k = mapGet l2 k
      simp only [mapGet]
      rw [if_neg hak]
      exact ih h

theorem mapGet_modifyFabric_self (m : ChipConfigData) (i : Nat) (f : FabricData → FabricData) :
    mapGet (modifyFabric m i f).fabrics i = some (f (fabOrEmpty m i)) := by
  show mapGet (mapSet (getOrCreateFabric m i).fabrics i (f (fabOrEmpty m i))) i
    = some (f (fabOrEmpty m i))
  exact mapGet_mapSet_self _ _ _

theorem modifyFabric_generic (m : ChipConfigData) (i : Nat) (f : FabricData → FabricData) :
    (modifyFabric m i f).generic = m.generic := by
  unfold modifyFabric getOrCreateFabric
  split <;> rfl

theorem modifyFabric_globals (m : ChipConfigData) (i : Nat) (f : FabricData → FabricData) :
    (modifyFabric m i f).globals = m.globals := by
  unfold modifyFabric getOrCreateFabric
  split <;> rfl

theorem modifyFabric_sessions (m : ChipConfigData) (i : Nat) (f : FabricData → FabricData) :
    (modifyFabric m i f).sessions = m.sessions := by
  unfold modifyFabric getOrCreateFabric
  split <;> rfl

theorem mem_getRcacT_steps (lib : CertLib) (m : ChipConfigData) (i : Nat) :
    ∀ s ∈ (getRcacT lib m i).2, s = VStep.rcacDecode := by
  intro s hs
  unfold getRcacT at hs
  split at hs
  · simp at hs
  · split at hs
    · simp at hs
    · simp at hs; exact hs

theorem mem_getIcacT_steps (lib : CertLib) (m : ChipConfigData) (i : Nat) :
    ∀ s ∈ (getIcacT lib m i).2, s = VStep.icacDecode := by
  intro s hs
  unfold getIcacT at hs
  split at hs
  · simp at hs
  · split at hs
    · simp at hs
    · simp at hs; exact hs

theorem mem_getNocT_steps (lib : CertLib) (m : ChipConfigData) (i : Nat) :
    ∀ s ∈ (getNocT lib m i).2, s = VStep.nocDecode := by
  intro s hs
  unfold getNocT at hs
  split at hs
  · simp at hs
  · split at hs
    · simp at hs
    · simp at hs; exact hs

theorem mapGet_isSome_iff_mem {α β : Type} [DecidableEq α] (l : List (α × β)) (k : α) :
    (mapGet l k).isSome = true ↔ k ∈ l.map Prod.fst := by
  induction l with
  | nil => simp [mapGet]
  | cons p rest ih =>
    obtain ⟨a, b⟩ := p
    by_cases h : a = k
    · subst h; simp [mapGet]
    · simp [mapGet, h, ih, Ne.symm h]

/-- C1: the claimed `load → save → load` round trip with byte-identical keys
fails on hexadecimal fabric indices: loading the single key `f/A/n` (fabric
ten) and saving renders the decimal prefix `f/10/n`, a different key, which
on reload reparses as hexadecimal to fabric sixteen.  This theorem evaluates
the code at the failing input. -/
theorem c1_load_save_roundtrip_hex_bug :
    (fileC1.sdkConfig.getD []).map Prod.fst = [['f', '/', 'A', '/', 'n']]
    ∧ load trivialCodec emptyCCD (some fileC1) = .ok mC1
    ∧ ((save mC1).sdkConfig.getD []).map Prod.fst = [['f', '/', '1', '0', '/', 'n']]
    ∧ (['f', '/', '1', '0', '/', 'n'] : Str) ≠ ['f', '/', 'A', '/', 'n']
    ∧ load trivialCodec mC1 (some (save mC1)) = .ok mC1b
    ∧ getFabricIndices mC1 = [10]
    ∧ getFabricIndices mC1b = [16] :=
  ⟨rfl, rfl, rfl, by decide, rfl, rfl, rfl⟩

/-- C2: the claim that every key lands in one of the four buckets fails: an
unrecognized global key `g/x` falls through every branch of `parseGlobalKey`
and a malformed fabric key `f/x` is discarded by `parseFabricKey`, so
loading a file with exactly those two keys leaves the model completely
empty — the keys are dropped, not stored in the generic bucket.  This
theorem evaluates the code at the failing input. -/
theorem c2_unknown_key_dropped_bug :
    load trivialCodec emptyCCD (some fileC2) = .ok emptyCCD
    ∧ emptyCCD.generic = [] ∧ emptyCCD.fabrics = ([] : List (Nat × FabricData))
    ∧ emptyCCD.ignored = [] ∧ emptyCCD.globals = { } ∧ emptyCCD.sessions = { } :=
  ⟨rfl, rfl, rfl, rfl, rfl, rfl⟩

/-- C3 counterexample: a fabric whose RCAC decodes but fails
self-verification and whose NOC is missing yields the NOC-not-found result
with `rcacValid` unset, not the claimed RCAC-verification-failure result:
the source decodes the NOC before verifying the RCAC. -/
theorem c3_rcac_short_circuit_counterexample :
    load trivialCodec emptyCCD (some fileC3) = .ok mC3
    ∧ getRcac libC3 mC3 1 = some certR
    ∧ libC3.verifyRcac certR = .error "bad signature"
    ∧ verifyCertificateChain libC3 mC3 1
        = { valid := false, error := some "NOC not found or invalid" }
    ∧ (verifyCertificateChain libC3 mC3 1).rcacValid = none
    ∧ verifyCertificateChain libC3 mC3 1
        ≠ { valid := false, rcacValid := some false,
            error := some ("RCAC verification failed: " ++ "bad signature") } :=
  ⟨rfl, rfl, rfl, rfl, rfl, by decide⟩

/-- C3 amended: when the fabric's RCAC decodes but self-verification fails
AND the NOC is present and decodable, the result is
`{valid := false, rcacValid := false, error := "RCAC verification failed: <cause>"}`
and no verification step after the RCAC check runs; when the NOC is missing
or undecodable the NOC-not-found result is returned before RCAC
verification is attempted. -/
theorem c3_rcac_verification_failure_amended :
    ∀ (lib : CertLib) (m : ChipConfigData) (i : Nat) (rc : MatterCert) (e : String),
    getRcac lib m i = some rc →
    (getNoc lib m i).isSome = true →
    lib.verifyRcac rc = .error e →
    verifyCertificateChain lib m i
      = { valid := false, rcacValid := some false,
          error := some ("RCAC verification failed: " ++ e) }
    ∧ VStep.icacVerify ∉ (verifyCertificateChainT lib m i).2
    ∧ VStep.nocVerify ∉ (verifyCertificateChainT lib m i).2 := by
  intro lib m i rc e hrc hnoc hv
  unfold getRcac at hrc
  obtain ⟨nc, hnc⟩ := Option.isSome_iff_exists.mp hnoc
  unfold getNoc at hnc
  have hred : verifyCertificateChainT lib m i
      = ({ valid := false, rcacValid := some false,
           error := some ("RCAC verification failed: " ++ e) },
         ((getRcacT lib m i).2 ++ (getIcacT lib m i).2 ++ (getNocT lib m i).2)
           ++ [VStep.rcacVerify]) := by
    unfold verifyCertificateChainT
    simp only [hrc, hnc, hv]
  refine ⟨?_, ?_, ?_⟩
  · unfold verifyCertificateChain
    rw [hred]
  · rw [hred]
    intro hmem
    simp only [List.mem_append, List.mem_singleton] at hmem
    rcases hmem with ((h1 | h1) | h1) | h1
    · exact absurd (mem_getRcacT_steps lib m i _ h1) (by decide)
    · exact absurd (mem_getIcacT_steps lib m i _ h1) (by decide)
    · exact absurd (mem_getNocT_steps lib m i _ h1) (by decide)
    · exact absurd h1 (by decide)
  · rw [hred]
    intro hmem
    simp only [List.mem_append, List.mem_singleton] at hmem
    rcases hmem with ((h1 | h1) | h1) | h1
    · exact absurd (mem_getRcacT_steps lib m i _ h1) (by decide)
    · exact absurd (mem_getIcacT_steps lib m i _ h1) (by decide)
    · exact absurd (mem_getNocT_steps lib m i _ h1) (by decide)
    · exact absurd h1 (by decide)

/-- C3 amended, witnessed at a concrete fabric with decodable RCAC and NOC
whose RCAC self-verification fails. -/
theorem c3_rcac_verification_failure_witness :
    verifyCertificateChain libW3 mW3 1
      = { valid := false, rcacValid := some false,
          error := some ("RCAC verification failed: " ++ "bad signature") } :=
  (c3_rcac_verification_failure_amended libW3 mW3 1 certR "bad signature" rfl rfl rfl).1

/-- C4 counterexample: a fabric whose ICAC bytes are present but undecodable
is NOT reported as an ICAC verification failure: the undecodable ICAC is
silently skipped and the chain verifies with `icacValid` unset. -/
theorem c4_icac_undecodable_counterexample :
    load trivialCodec emptyCCD (some fileC4) = .ok mC4
    ∧ (∃ fab, mapGet mC4.fabrics 1 = some fab ∧ fab.icac.isSome = true)
    ∧ getIcac libC4 mC4 1 = none
    ∧ verifyCertificateChain libC4 mC4 1
        = { valid := true, rcacValid := some true, nocValid := some true }
    ∧ (verifyCertificateChain libC4 mC4 1).icacValid = none :=
  ⟨rfl, ⟨_, rfl, rfl⟩, rfl, rfl, rfl⟩

/-- C4 amended: when the ICAC is present AND decodable but fails
verification against the RCAC, the result is
`{valid := false, icacValid := false, error := "ICAC verification failed: <cause>"}`;
when `getIcac` yields nothing (ICAC bytes absent OR undecodable) the ICAC
verification step is skipped without being a failure. -/
theorem c4_icac_verification_amended :
    ∀ (lib : CertLib) (m : ChipConfigData) (i : Nat) (rc nc : MatterCert),
    getRcac lib m i = some rc →
    getNoc lib m i = some nc →
    lib.verifyRcac rc = .ok () →
    (∀ ic e, getIcac lib m i = some ic → lib.verifyIcac ic rc = .error e →
      verifyCertificateChain lib m i
        = { valid := false, rcacValid := some true, icacValid := some false,
            error := some ("ICAC verification failed: " ++ e) })
    ∧ (getIcac lib m i = none →
        VStep.icacVerify ∉ (verifyCertificateChainT lib m i).2
        ∧ (lib.verifyNoc nc rc none = .ok () →
            verifyCertificateChain lib m i
              = { valid := true, rcacValid := some true, nocValid := some true })) := by
  intro lib m i rc nc hrc hnc hvr
  unfold getRcac at hrc
  unfold getNoc at hnc
  constructor
  · intro ic e hic hvi
    unfold getIcac at hic
    unfold verifyCertificateChain verifyCertificateChainT
    simp only [hrc, hnc, hvr, hic, hvi]
  · intro hnoic
    unfold getIcac at hnoic
    constructor
    · intro hmem
      have hred : (verifyCertificateChainT lib m i).2 =
          (match lib.verifyNoc nc rc none with
           | .error _ => ((getRcacT lib m i).2 ++ (getIcacT lib m i).2 ++ (getNocT lib m i).2)
               ++ [VStep.rcacVerify, VStep.nocVerify]
           | .ok _ => ((getRcacT lib m i).2 ++ (getIcacT lib m i).2 ++ (getNocT lib m i).2)
               ++ [VStep.rcacVerify, VStep.nocVerify]) := by
        unfold verifyCertificateChainT
        simp only [hrc, hnc, hvr, hnoic]
        cases lib.verifyNoc nc rc none <;> rfl
      rw [hred] at hmem
      have hmem2 : VStep.icacVerify ∈
          ((getRcacT lib m i).2 ++ (getIcacT lib m i).2 ++ (getNocT lib m i).2)
            ++ [VStep.rcacVerify, VStep.nocVerify] := by
        cases hvn : lib.verifyNoc nc rc none <;> rw [hvn] at hmem <;> exact hmem
      simp only [List.mem_append] at hmem2
      rcases hmem2 with ((h1 | h1) | h1) | h1
      · exact absurd (mem_getRcacT_steps lib m i _ h1) (by decide)
      · exact absurd (mem_getIcacT_steps lib m i _ h1) (by decide)
      · exact absurd (mem_getNocT_steps lib m i _ h1) (by decide)
      · simp at h1
    · intro hvn
      unfold verifyCertificateChain verifyCertificateChainT
      simp only [hrc, hnc, hvr, hnoic, hvn]

/-- C4 amended, witnessed at a concrete fabric whose ICAC decodes but fails
verification against the RCAC. -/
theorem c4_icac_verification_witness :
    verifyCertificateChain libW4 mC4 1
      = { valid := false, rcacValid := some true, icacValid := some false,
          error := some ("ICAC verification failed: " ++ "bad icac") } :=
  ((c4_icac_verification_amended libW4 mC4 1 certR certN rfl rfl rfl).1
    certI "bad icac" rfl rfl)

/-- C5: a `g/s/<resumptionId>` key is routed by `load` to `parseGlobalKey`;
when its payload decodes to a `SessionResumptionEntry` reporting a fabric
index, the entry is filed under that fabric's `resumptions` and
`resumptionsDecoded` maps (the fabric being created if needed) while the
top-level `generic`, `globals` and `sessions` stores are untouched; when the
decode fails, the key/value pair is stored in the generic bucket. -/
theorem c5_gs_payload_ownership :
    ∀ (codec : TlvCodec) (m : ChipConfigData) (rid v : Str),
    processSdkEntry codec m (gsKey rid, v) = parseGlobalKey codec m (gsKey rid) v
    ∧ (∀ d, codec.decodeSessionResumptionEntry (b64decode v) = some d →
        ∃ fab, mapGet (parseGlobalKey codec m (gsKey rid) v).fabrics d.fabricIndex = some fab
          ∧ mapGet fab.resumptions rid = some (decodeEntry v)
          ∧ mapGet fab.resumptionsDecoded rid = some d
          ∧ (parseGlobalKey codec m (gsKey rid) v).generic = m.generic
          ∧ (parseGlobalKey codec m (gsKey rid) v).globals = m.globals
          ∧ (parseGlobalKey codec m (gsKey rid) v).sessions = m.sessions)
    ∧ (codec.decodeSessionResumptionEntry (b64decode v) = none →
        parseGlobalKey codec m (gsKey rid) v
          = { m with generic := mapSet m.generic (gsKey rid) v }) := by
  intro codec m rid v
  have hred : parseGlobalKey codec m (gsKey rid) v =
      (match codec.decodeSessionResumptionEntry (b64decode v) with
       | some decoded => modifyFabric m decoded.fabricIndex (fun fabric =>
           { fabric with
             resumptions := mapSet fabric.resumptions rid (decodeEntry v)
             resumptionsDecoded := mapSet fabric.resumptionsDecoded rid decoded })
       | none => { m with generic := mapSet m.generic (gsKey rid) v }) := rfl
  refine ⟨rfl, ?_, ?_⟩
  · intro d hd
    rw [hred, hd]
    refine ⟨_, mapGet_modifyFabric_self m d.fabricIndex _, ?_, ?_, ?_, ?_, ?_⟩
    · exact mapGet_mapSet_self _ _ _
    · exact mapGet_mapSet_self _ _ _
    · exact modifyFabric_generic m d.fabricIndex _
    · exact modifyFabric_globals m d.fabricIndex _
    · exact modifyFabric_sessions m d.fabricIndex _
  · intro hn
    rw [hred, hn]

/-- C5, witnessed with a codec whose resumption entry decoder reports fabric
index 1: the entry lands under fabric 1. -/
theorem c5_gs_payload_ownership_witness :
    ∃ fab, mapGet (parseGlobalKey codecW5 emptyCCD (gsKey ['a']) valAA).fabrics 1 = some fab
      ∧ mapGet fab.resumptions ['a'] = some (decodeEntry valAA)
      ∧ mapGet fab.resumptionsDecoded ['a']
          = some { fabricIndex := 1, peerNodeId := 112 } := by
  obtain ⟨fab, h1, h2, h3, _⟩ :=
    (c5_gs_payload_ownership codecW5 emptyCCD ['a'] valAA).2.1
      { fabricIndex := 1, peerNodeId := 112 } rfl
  exact ⟨fab, h1, h2, h3⟩

/-- C6: fabric index segments parse as hexadecimal (`A` is ten) and
`getFabricIndices` returns the known indices sorted ascending numerically:
it is always sorted, contains exactly the fabric map's keys, and loading a
file with keys `f/3/n`, `f/1/n`, `f/A/n`, `f/2/n` yields `[1, 2, 3, 10]`. -/
theorem c6_hex_indices_sorted :
    (∀ m : ChipConfigData, List.Sorted (fun a b => a ≤ b) (getFabricIndices m)
      ∧ ∀ i : Nat, i ∈ getFabricIndices m ↔ (mapGet m.fabrics i).isSome = true)
    ∧ hexToNat ['A'] = 10
    ∧ ∀ (codec : TlvCodec) (v : Str),
        (load codec emptyCCD (some (fileC6 v))).toOption.map getFabricIndices
          = some [1, 2, 3, 10] := by
  refine ⟨fun m => ⟨?_, fun i => ?_⟩, rfl, fun codec v => rfl⟩
  · exact List.sorted_insertionSort _ _
  · unfold getFabricIndices
    rw [(List.perm_insertionSort _ _).mem_iff]
    exact (mapGet_isSome_iff_mem m.fabrics i).symm

/-- C6, witnessed at the state loaded from `fileC1`: fabric ten is among the
indices. -/
theorem c6_hex_indices_sorted_witness : 10 ∈ getFabricIndices mC1 :=
  ((c6_hex_indices_sorted.1 mC1).2 10).mpr (by decide)

/-- C7: a malformed binary payload is swallowed at the point of decode: for
fabric metadata, group key sets and session details (`parseFabricKey`) and
for `g/fidx`, `g/lkgt`, `g/sri` (`parseGlobalKey`), a failing decode leaves
the `*Decoded` data unset while the raw bytes and original base64 string are
stored; and `load` always succeeds on parsed content, never aborting over a
bad record. -/
theorem c7_decode_failure_swallowed :
    ∀ (codec : TlvCodec) (m : ChipConfigData) (v : Str),
    (∀ key i, matchFabricKey key = some (i, ['m']) → mapGet m.fabrics i = none →
      codec.decodeFabricMetadata (b64decode v) = none →
      ∃ fab, mapGet (parseFabricKey codec m key v).fabrics i = some fab
        ∧ fab.metadata = some { raw := b64decode v, base64 := v }
        ∧ fab.metadataDecoded = none)
    ∧ (∀ key i ks, matchFabricKey key = some (i, 'k' :: '/' :: ks) →
      mapGet m.fabrics i = none →
      codec.decodeGroupKeySet (b64decode v) = none →
      ∃ fab, mapGet (parseFabricKey codec m key v).fabrics i = some fab
        ∧ mapGet fab.keys (parseIntDec ks) = some { raw := b64decode v, base64 := v }
        ∧ fab.keysDecoded = [])
    ∧ (∀ key i nh, matchFabricKey key = some (i, 's' :: '/' :: nh) →
      mapGet m.fabrics i = none →
      codec.decodeSessionResumptionDetails (b64decode v) = none →
      ∃ fab, mapGet (parseFabricKey codec m key v).fabrics i = some fab
        ∧ mapGet fab.sessions nh = some { raw := b64decode v, base64 := v }
        ∧ fab.sessionsDecoded = [])
    ∧ (codec.decodeFabricIndexList (b64decode v) = none →
        (parseGlobalKey codec m keyGFidx v).globals.fabricIndexList
          = some { raw := b64decode v, base64 := v }
        ∧ (parseGlobalKey codec m keyGFidx v).globals.fabricIndexListDecoded
            = m.globals.fabricIndexListDecoded)
    ∧ (codec.decodeLastKnownGoodTime (b64decode v) = none →
        (parseGlobalKey codec m keyGLkgt v).globals.lastKnownGoodTime
          = some { raw := b64decode v, base64 := v }
        ∧ (parseGlobalKey codec m keyGLkgt v).globals.lastKnownGoodTimeDecoded
            = m.globals.lastKnownGoodTimeDecoded)
    ∧ (codec.decodeSessionResumptionIndex (b64decode v) = none →
        (parseGlobalKey codec m keyGSri v).sessions.resumptionIndex
          = some { raw := b64decode v, base64 := v }
        ∧ (parseGlobalKey codec m keyGSri v).sessions.resumptionIndexDecoded
            = m.sessions.resumptionIndexDecoded)
    ∧ (∀ d : ChipConfigFile, ∃ m2, load codec m (some d) = Except.ok m2) := by
  intro codec m v
  refine ⟨?_, ?_, ?_, ?_, ?_, ?_, fun d => ⟨_, rfl⟩⟩
  · intro key i h hfab hdec
    have hred : parseFabricKey codec m key v = modifyFabric m i (fun fabric =>
        { fabric with
          metadata := some (decodeEntry v)
          metadataDecoded :=
            match codec.decodeFabricMetadata (b64decode v) with
            | some d => some d
            | none => fabric.metadataDecoded }) := by
      unfold parseFabricKey
      rw [h]
      rfl
    rw [hred]
    have hfe : fabOrEmpty m i = emptyFabric i := by
      unfold fabOrEmpty; rw [hfab]; rfl
    refine ⟨_, mapGet_modifyFabric_self m i _, ?_, ?_⟩
    · rw [hfe]; rfl
    · rw [hfe]
      show (match codec.decodeFabricMetadata (b64decode v) with
            | some d => some d
            | none => (emptyFabric i).metadataDecoded) = none
      rw [hdec]
      rfl
  · intro key i ks h hfab hdec
    have hred : parseFabricKey codec m key v = modifyFabric m i (fun fabric =>
        { fabric with
          keys := mapSet fabric.keys (parseIntDec ks) (decodeEntry v)
          keysDecoded :=
            match codec.decodeGroupKeySet (b64decode v) with
            | some d => mapSet fabric.keysDecoded (parseIntDec ks) d
            | none => fabric.keysDecoded }) := by
      unfold parseFabricKey
      rw [h]
      rfl
    rw [hred]
    have hfe : fabOrEmpty m i = emptyFabric i := by
      unfold fabOrEmpty; rw [hfab]; rfl
    refine ⟨_, mapGet_modifyFabric_self m i _, ?_, ?_⟩
    · rw [hfe]
      exact mapGet_mapSet_self _ _ _
    · rw [hfe]
      show (match codec.decodeGroupKeySet (b64decode v) with
            | some d => mapSet (emptyFabric i).keysDecoded (parseIntDec ks) d
            | none => (emptyFabric i).keysDecoded) = []
      rw [hdec]
      rfl
  · intro key i nh h hfab hdec
    have hred : parseFabricKey codec m key v = modifyFabric m i (fun fabric =>
        { fabric with
          sessions := mapSet fabric.sessions nh (decodeEntry v)
          sessionsDecoded :=
            match codec.decodeSessionResumptionDetails (b64decode v) with
            | some d => mapSet fabric.sessionsDecoded nh d
            | none => fabric.sessionsDecoded }) := by
      unfold parseFabricKey
      rw [h]
      rfl
    rw [hred]
    have hfe : fabOrEmpty m i = emptyFabric i := by
      unfold fabOrEmpty; rw [hfab]; rfl
    refine ⟨_, mapGet_modifyFabric_self m i _, ?_, ?_⟩
    · rw [hfe]
      exact mapGet_mapSet_self _ _ _
    · rw [hfe]
      show (match codec.decodeSessionResumptionDetails (b64decode v) with
            | some d => mapSet (emptyFabric i).sessionsDecoded nh d
            | none => (emptyFabric i).sessionsDecoded) = []
      rw [hdec]
      rfl
  · intro hdec
    refine ⟨rfl, ?_⟩
    show (match codec.decodeFabricIndexList (b64decode v) with
          | some d => some d
          | none => m.globals.fabricIndexListDecoded) = m.globals.fabricIndexListDecoded
    rw [hdec]
  · intro hdec
    refine ⟨rfl, ?_⟩
    show (match codec.decodeLastKnownGoodTime (b64decode v) with
          | some d => some d
          | none => m.globals.lastKnownGoodTimeDecoded) = m.globals.lastKnownGoodTimeDecoded
    rw [hdec]
  · intro hdec
    refine ⟨rfl, ?_⟩
    show (match codec.decodeSessionResumptionIndex (b64decode v) with
          | some d => some d
          | none => m.sessions.resumptionIndexDecoded) = m.sessions.resumptionIndexDecoded
    rw [hdec]

/-- C7, witnessed at a non-decoding payload under `f/1/m`: the raw entry is
stored and `metadataDecoded` stays unset. -/
theorem c7_decode_failure_swallowed_witness :
    ∃ fab, mapGet (parseFabricKey trivialCodec emptyCCD
        ['f', '/', '1', '/', 'm'] valAA).fabrics 1 = some fab
      ∧ fab.metadata = some { raw := b64decode valAA, base64 := valAA }
      ∧ fab.metadataDecoded = none :=
  (c7_decode_failure_swallowed trivialCodec emptyCCD valAA).1
    ['f', '/', '1', '/', 'm'] 1 rfl rfl rfl

/-- C8: when the fabric's RCAC is missing or its bytes do not decode
(`getRcac` yields nothing), `verifyCertificateChain` immediately returns
`{valid := false, error := "RCAC not found or invalid"}`; the only
collaborator invocation possibly performed is the RCAC decode attempt — the
ICAC and NOC are never consulted and no verification step runs. -/
theorem c8_missing_rcac_short_circuit :
    ∀ (lib : CertLib) (m : ChipConfigData) (i : Nat),
    getRcac lib m i = none →
    verifyCertificateChain lib m i
      = { valid := false, error := some "RCAC not found or invalid" }
    ∧ ∀ s ∈ (verifyCertificateChainT lib m i).2, s = VStep.rcacDecode := by
  intro lib m i h
  unfold getRcac at h
  have hred : verifyCertificateChainT lib m i
      = ({ valid := false, error := some "RCAC not found or invalid" },
         (getRcacT lib m i).2) := by
    unfold verifyCertificateChainT
    rw [h]
  constructor
  · unfold verifyCertificateChain
    rw [hred]
  · rw [hred]
    exact mem_getRcacT_steps lib m i

/-- C8, witnessed at a fabric index with no data at all. -/
theorem c8_missing_rcac_short_circuit_witness :
    verifyCertificateChain libC3 emptyCCD 1
      = { valid := false, error := some "RCAC not found or invalid" } :=
  (c8_missing_rcac_short_circuit libC3 emptyCCD 1 rfl).1

/-- C9: `getFabricConfig` is all-or-nothing: it succeeds exactly when the
fabric exists with a decodable RCAC and NOC (entries present), the NOC
subject carries nodeId and fabricId, the RCAC subject carries rcacId, the
fabric metadata decoded, and key-set slot 0 decoded with a nonempty key list
containing a 16-byte key; and any returned record is fully populated from
exactly those sources. -/
theorem c9_fabric_config_all_or_nothing :
    ∀ (lib : CertLib) (m : ChipConfigData) (i : Nat),
    ((getFabricConfig lib m i).isSome = fabricConfigPrereq lib m i)
    ∧ (∀ c, getFabricConfig lib m i = some c →
      ∃ fabric rcac noc rcacEntry nocEntry md ks ipkEntry,
        mapGet m.fabrics i = some fabric
        ∧ getRcac lib m i = some rcac
        ∧ getNoc lib m i = some noc
        ∧ fabric.rcac = some rcacEntry
        ∧ fabric.noc = some nocEntry
        ∧ fabric.metadataDecoded = some md
        ∧ mapGet fabric.keysDecoded (some 0) = some ks
        ∧ ks.keys.find? (fun k => k.key.length = 16) = some ipkEntry
        ∧ ipkEntry.key.length = 16
        ∧ noc.subject.nodeId = some c.nodeId
        ∧ noc.subject.fabricId = some c.fabricId
        ∧ rcac.subject.rcacId = some c.rootNodeId
        ∧ c.fabricIndex = i
        ∧ c.rootVendorId = md.vendorId
        ∧ c.label = md.label
        ∧ c.rootCert = rcacEntry.raw
        ∧ c.rootPublicKey = rcac.ellipticCurvePublicKey
        ∧ c.identityProtectionKey = ipkEntry.key
        ∧ c.intermediateCACert = fabric.icac.map DecodedEntry.raw
        ∧ c.operationalCert = nocEntry.raw) := by
  intro lib m i
  constructor
  · unfold getFabricConfig fabricConfigPrereq
    repeat' split
    all_goals first
      | rfl
      | simp_all
  · intro c hc
    unfold getFabricConfig at hc
    repeat' split at hc
    any_goals exact Option.noConfusion hc
    injection hc with h
    subst h
    rename_i x1 fabric hfab x2 rcacC hrc x3 nocC hnc x4 rcacE hre x5 nocE hne
      x6 nid hnid x7 fid hfid x8 rid hrid x9 md hmd x10 ks hks hlen x11 ipk hfind
    have h16 : ipk.key.length = 16 := by simpa using List.find?_some hfind
    exact ⟨fabric, rcacC, nocC, rcacE, nocE, md, ks, ipk, hfab, hrc, hnc, hre, hne,
      hmd, hks, hfind, h16, hnid, hfid, hrid,
      rfl, rfl, rfl, rfl, rfl, rfl, rfl, rfl⟩

/-- C9, witnessed at a fully populated fabric: the prerequisites hold,
`getFabricConfig` succeeds, and the projection carries the decoded fabric
metadata. -/
theorem c9_fabric_config_all_or_nothing_witness :
    fabricConfigPrereq libW9 mW9 1 = true
    ∧ (getFabricConfig libW9 mW9 1).isSome = true
    ∧ ∃ fabric, mapGet mW9.fabrics 1 = some fabric
        ∧ fabric.metadataDecoded.isSome = true := by
  have h := c9_fabric_config_all_or_nothing libW9 mW9 1
  refine ⟨rfl, by rw [h.1]; rfl, ?_⟩
  obtain ⟨fabric, _, _, _, _, _, _, _, hfab, _, _, _, _, hmd, _⟩ := h.2 _ rfl
  exact ⟨fabric, hfab, by rw [hmd]; rfl⟩

/-- C10: `load` is atomic with respect to malformed top-level JSON: when
`JSON.parse` throws (content `none`) the call errors out having performed no
mutation, so the caller's model is untouched; and after a successful parse
the previous state is fully cleared — the loaded result is independent of
whatever model state preceded the call. -/
theorem c10_load_atomic_on_parse_failure :
    (∀ (codec : TlvCodec) (m : ChipConfigData), load codec m none = .error jsonParseError)
    ∧ (∀ (codec : TlvCodec) (m m2 : ChipConfigData) (d : ChipConfigFile),
        load codec m (some d) = load codec m2 (some d)) :=
  ⟨fun _ _ => rfl, fun _ _ _ _ => rfl⟩

end ChipConfig
